import Mathlib

/-
  Verification development for the SnapSync transfer core.

  The Go sources are embedded shallowly: byte slices become lists of
  naturals, the wire codec becomes pure functions on byte lists, the
  resume store and the receiver become explicit state-passing functions
  over a small disk-state record, and Go sentinel errors become a list of
  error kinds carried by the failure value (errors.Is through a wrap
  chain is list membership).  External library pieces are abstracted:
  the JSON sidecar codec of the resume store becomes an injective
  constructor on the file-content type, and the SHA-256 hasher becomes a
  fixed executable 32-byte digest function (no property of the digest
  function is used by any theorem except that it is a function).
-/

deriving instance DecidableEq for Except

namespace SnapSync

/-- Bytes on the wire and in files are modelled as lists of naturals. -/
abbrev ByteL := List Nat

/-- UTF-8 bytes of an ASCII string literal. -/
def strBytes (s : String) : ByteL := s.toList.map Char.toNat

/-- Big-endian 16-bit encoding (binary.BigEndian.PutUint16). -/
def be16 (n : Nat) : ByteL := [n / 256 % 256, n % 256]

/-- Big-endian 32-bit encoding (binary.BigEndian.PutUint32). -/
def be32 (n : Nat) : ByteL :=
  [n / 16777216 % 256, n / 65536 % 256, n / 256 % 256, n % 256]

/-- Big-endian 64-bit encoding (binary.BigEndian.PutUint64). -/
def be64 (n : Nat) : ByteL :=
  [n / 72057594037927936 % 256, n / 281474976710656 % 256,
   n / 1099511627776 % 256, n / 4294967296 % 256,
   n / 16777216 % 256, n / 65536 % 256, n / 256 % 256, n % 256]

/-- Big-endian decoding of a byte list (binary.BigEndian.UintNN). -/
def rdNat (bs : ByteL) : Nat := bs.foldl (fun a b => a * 256 + b) 0

/-- Error kinds of the application error taxonomy (internal/errors).
The src revision declares only ErrUsage; the other sentinels are
referenced by the transfer and resume packages, and the spec taxonomy
additionally speaks of an Integrity failure, so all kinds appear here.
A Go error value is modelled by the list of sentinel kinds its wrap
chain contains. -/
inductive ErrKind where
  | usage
  | rejected
  | invalidProtocol
  | network
  | ioErr
  | lockBusy
  | integrity
deriving DecidableEq, Repr

/-- A Go error is modelled as the kinds reachable through its wrap chain. -/
abbrev AppError := List ErrKind

/-- Frame is a protocol frame (internal/transfer/protocol.go). -/
structure Frame where
  ftype : Nat
  payload : ByteL
deriving DecidableEq, Repr

/-- Magic marks SnapSync wire frames, the bytes of the string SSYN. -/
def magicBytes : ByteL := [83, 83, 89, 78]

/-- MaxChunkSize is the max DATA payload bytes per frame. -/
def MaxChunkSize : Nat := 1024 * 1024

/-- MaxControlPayload is the max control payload size. -/
def MaxControlPayload : Nat := 4096

/-- HashSize is the raw final digest size in bytes. -/
def HashSize : Nat := 32

/-- Per-type payload cap (maxPayloadByType in protocol.go). -/
def maxPayloadByType (t : Nat) : Nat :=
  if t = 1 then 0
  else if t = 3 then MaxControlPayload
  else if t = 5 then 2 + HashSize
  else if t = 2 ∨ t = 6 then MaxControlPayload
  else if t = 4 then MaxChunkSize
  else MaxControlPayload

/-- Serialized header plus payload of a frame, as WriteFrame emits it. -/
def frameBytes (f : Frame) : ByteL :=
  [83, 83, 89, 78, 0, 1,
   f.ftype / 256 % 256, f.ftype % 256,
   f.payload.length / 16777216 % 256, f.payload.length / 65536 % 256,
   f.payload.length / 256 % 256, f.payload.length % 256,
   0, 0, 0, 0] ++ f.payload

/-- WriteFrame writes one protocol frame to the stream (protocol.go).
The header carries magic, version 1, the type, the payload length and a
zero reserved field; oversized payloads are refused up front. -/
def WriteFrame (f : Frame) : Except AppError ByteL :=
  if maxPayloadByType f.ftype < f.payload.length then .error [.invalidProtocol]
  else .ok (frameBytes f)

/-- ReadFrame reads one protocol frame from a byte stream (protocol.go).
A stream shorter than the 16-byte header, or shorter than the declared
payload, is a plain read failure (no protocol kind); bad magic, version,
reserved field or an over-cap declared length are InvalidProtocol. -/
def ReadFrame : ByteL → Except AppError (Frame × ByteL)
  | m0 :: m1 :: m2 :: m3 :: v0 :: v1 :: t0 :: t1 ::
    l0 :: l1 :: l2 :: l3 :: r0 :: r1 :: r2 :: r3 :: rest =>
    if [m0, m1, m2, m3] ≠ magicBytes then .error [.invalidProtocol]
    else if v0 * 256 + v1 ≠ 1 then .error [.invalidProtocol]
    else if r0 * 16777216 + r1 * 65536 + r2 * 256 + r3 ≠ 0 then .error [.invalidProtocol]
    else
      let t := t0 * 256 + t1
      let ln := l0 * 16777216 + l1 * 65536 + l2 * 256 + l3
      if maxPayloadByType t < ln then .error [.invalidProtocol]
      else if rest.length < ln then .error []
      else .ok (⟨t, rest.take ln⟩, rest.drop ln)
  | _ => .error []

/-- OfferPayload represents decoded OFFER payload data. -/
structure OfferPayload where
  name : ByteL
  size : Nat
  sessionID : ByteL
deriving DecidableEq, Repr

/-- EncodeOffer builds the OFFER payload (protocol.go). -/
def EncodeOffer (name : ByteL) (size : Nat) (sessionID : ByteL) :
    Except AppError ByteL :=
  if name.length = 0 ∨ 1024 < name.length ∨ sessionID.length = 0 ∨ 128 < sessionID.length
  then .error [.invalidProtocol]
  else .ok (be16 name.length ++ name ++ be64 size ++ be16 sessionID.length ++ sessionID)

/-- DecodeOffer parses the OFFER payload (protocol.go). -/
def DecodeOffer (p : ByteL) : Except AppError OfferPayload :=
  if p.length < 12 then .error [.invalidProtocol]
  else
    let nameLen := rdNat (p.take 2)
    if nameLen = 0 ∨ p.length < 2 + nameLen + 8 + 2 then .error [.invalidProtocol]
    else
      let size := rdNat ((p.drop (2 + nameLen)).take 8)
      let sidLen := rdNat ((p.drop (2 + nameLen + 8)).take 2)
      if sidLen = 0 ∨ 2 + nameLen + 8 + 2 + sidLen ≠ p.length then .error [.invalidProtocol]
      else .ok ⟨(p.drop 2).take nameLen, size, p.drop (2 + nameLen + 8 + 2)⟩

/-- EncodeAccept builds the ACCEPT payload containing resume offset and
session id (protocol.go). -/
def EncodeAccept (offset : Nat) (sessionID : ByteL) : ByteL :=
  be64 offset ++ be16 sessionID.length ++ sessionID

/-- DecodeAccept parses the ACCEPT payload (protocol.go). -/
def DecodeAccept (p : ByteL) : Except AppError (Nat × ByteL) :=
  if p.length < 10 then .error [.invalidProtocol]
  else
    let offset := rdNat (p.take 8)
    let sidLen := rdNat ((p.drop 8).take 2)
    if sidLen = 0 ∨ p.length ≠ 10 + sidLen then .error [.invalidProtocol]
    else .ok (offset, p.drop 10)

/-- EncodeDone encodes the DONE payload carrying the final digest. -/
def EncodeDone (h : ByteL) : Except AppError ByteL :=
  if h.length ≠ HashSize then .error [.invalidProtocol]
  else .ok (be16 HashSize ++ h)

/-- DecodeDone decodes the DONE payload carrying the final digest. -/
def DecodeDone (p : ByteL) : Except AppError ByteL :=
  if p.length ≠ 2 + HashSize then .error [.invalidProtocol]
  else if rdNat (p.take 2) ≠ HashSize then .error [.invalidProtocol]
  else .ok (p.drop 2)

/-- EncodeError encodes an ERROR payload message (protocol.go). -/
def EncodeError (msg : ByteL) : Except AppError ByteL :=
  if msg.length = 0 ∨ 1024 < msg.length then .error [.invalidProtocol]
  else .ok (be16 msg.length ++ msg)

/-- DecodeError decodes an ERROR payload message (protocol.go). -/
def DecodeError (p : ByteL) : Except AppError ByteL :=
  if p.length < 2 then .error [.invalidProtocol]
  else
    let ln := rdNat (p.take 2)
    if ln = 0 ∨ ln + 2 ≠ p.length then .error [.invalidProtocol]
    else .ok (p.drop 2)

/-- MetaVersion is the resume metadata schema version. -/
def MetaVersion : Nat := 1

/-- Meta stores crash-safe transfer progress for one partial file
(internal/resume, meta definitions). -/
structure Meta where
  version : Nat
  expectedSize : Nat
  receivedOffset : Nat
  originalName : ByteL
  sessionID : ByteL
deriving DecidableEq, Repr

/-- Contents of a file on disk.  The JSON sidecar codec of the resume
store (json.Marshal and json.Unmarshal of the Meta record, Go standard
library) is abstracted to the injective constructor FileContent.meta,
whose inverse is the successful decode; every other byte content is
FileContent.raw and fails to decode, matching the corrupt-sidecar
test of the repository. -/
inductive FileContent where
  | meta (m : Meta)
  | raw (bs : ByteL)
deriving DecidableEq, Repr

/-- Failure modes of LoadMeta: the sidecar file is absent, or it is
present but does not decode to a version-1 record.  The Go code
distinguishes exactly these through errors.Is(err, os.ErrNotExist). -/
inductive LoadErr where
  | notFound
  | invalid
deriving DecidableEq, Repr

/-- LoadMeta loads a metadata file (internal/resume): read the sidecar,
decode, and reject any schema version other than MetaVersion. -/
def LoadMeta (c : Option FileContent) : Except LoadErr Meta :=
  match c with
  | none => .error .notFound
  | some (.raw _) => .error .invalid
  | some (.meta m) => if m.version ≠ MetaVersion then .error .invalid else .ok m

/-- SaveMetaAtomic writes metadata atomically to the target path
(internal/resume): it overwrites the Version field with MetaVersion,
encodes, and the temp-write plus rename makes the new content appear
as one step, which the model renders as producing the stored content. -/
def SaveMetaAtomic (m : Meta) : FileContent :=
  .meta { m with version := MetaVersion }

/-- On-disk state at the four resolved paths of one transfer target:
the partial file, the meta sidecar, the final file, and whether the
lock file exists.  ResolvePaths itself (sanitization and collision
suffixing) is outside the claims and is abstracted: the receiver model
operates directly on the state at the resolved paths. -/
structure DiskState where
  pfile : Option ByteL
  metaFile : Option FileContent
  finalFile : Option ByteL
  lockFile : Bool
deriving DecidableEq, Repr

/-- Finalize renames the partial file to final and removes metadata and
lock artifacts (internal/resume/files.go). -/
def Finalize (d : DiskState) : DiskState :=
  { d with finalFile := d.pfile, pfile := none, metaFile := none, lockFile := false }

/-- AcquireLock acquires a target lock file exclusively
(internal/resume/lock.go): with breakLock the existing lock is removed
first; exclusive create fails with LockBusy when the lock file exists.
The lock body (pid, time, session, peer) is irrelevant to the claims
and is abstracted to the lock-present flag. -/
def AcquireLock (lockExists breakLock : Bool) : Except AppError Bool :=
  if lockExists ∧ breakLock = false then .error [.lockBusy]
  else .ok true

/-- Digest function standing in for the streaming SHA-256 hasher
(internal/hash): a fixed executable function from byte sequences to
32-byte digests.  No theorem uses any property of it beyond being a
function, exactly as the receiver and sender only feed bytes in and
compare the resulting digests. -/
def hashBytes (bs : ByteL) : ByteL :=
  (List.range 32).map
    (fun i => bs.foldl (fun a b => (a * 131 + b + 7) % 1000003) (i + 1) % 256)

/-- Overwrite-at-position file write: the open file handle writes the
chunk at the current position, keeping bytes before it and any bytes
after the written region (os.File.Write after Seek). -/
def writeAt (c : ByteL) (pos : Nat) (bs : ByteL) : ByteL :=
  (c.take pos ++ List.replicate (pos - c.length) 0) ++ bs ++ c.drop (pos + bs.length)

/-- Resume decision of the receiver (prepareResumeState in
receiver.go): given the pre-existing disk state, the decoded offer and
the resume-enabled flag, returns the updated disk state together with
the negotiated resume offset or an error.  Branches follow the Go code
in order: resume disabled removes both files; the four partial/meta
presence combinations; a missing partial with a corrupt sidecar falls
through to the stat error return; a size mismatch truncates the partial
and removes the sidecar; otherwise the offset is clamped to the partial
size after the partial is truncated down to the offered size. -/
def prepareResumeState (d : DiskState) (offer : OfferPayload) (enabled : Bool) :
    DiskState × Except AppError Nat :=
  if enabled = false then ({ d with pfile := none, metaFile := none }, .ok 0)
  else
    match d.pfile, LoadMeta d.metaFile with
    | none, .error .notFound => (d, .ok 0)
    | none, .ok _ => ({ d with metaFile := none }, .ok 0)
    | some _, .error .notFound => ({ d with pfile := some [] }, .ok 0)
    | none, .error .invalid => (d, .error [])
    | some _, .error .invalid => ({ d with pfile := some [], metaFile := none }, .ok 0)
    | some c, .ok m =>
      if m.expectedSize ≠ offer.size then
        ({ d with pfile := some [], metaFile := none }, .ok 0)
      else
        let d1 := if offer.size < c.length then { d with pfile := some (c.take offer.size) } else d
        let size := if offer.size < c.length then offer.size else c.length
        (d1, .ok (if size < m.receivedOffset then size else m.receivedOffset))

/-- Chunking of the source file as the sender read loop produces it:
reads of up to MaxChunkSize bytes until EOF (fuelled structural
recursion; the fuel passed by callers always suffices). -/
def chunksF : Nat → ByteL → List ByteL
  | 0, _ => []
  | _ + 1, [] => []
  | fuel + 1, bs => bs.take MaxChunkSize :: chunksF fuel (bs.drop MaxChunkSize)

/-- Chunks of the source file, MaxChunkSize bytes each except the last. -/
def chunks (bs : ByteL) : List ByteL := chunksF (bs.length + 1) bs

/-- Sender behavior from the response read onward (Send in sender.go,
src revision): on an ACCEPT frame of any payload the code falls through
without decoding the payload, then streams the whole source from byte
zero in chunks, hashing each raw chunk, applying the optional test-hook
mutator to the bytes it transmits, and finishes with DONE carrying the
digest; an ERROR response fails Rejected; anything else fails
InvalidProtocol.  The returned list is the frames written after the
response was read. -/
def SendSession (source : ByteL) (resp : Frame) (mutHook : Option (ByteL → ByteL)) :
    Except AppError (List Frame) :=
  if resp.ftype = 3 then
    .ok ((chunks source).map
          (fun c => ⟨4, match mutHook with | some f => f c | none => c⟩) ++
         [⟨5, be16 HashSize ++ hashBytes source⟩])
  else if resp.ftype = 6 then .error [.rejected]
  else .error [.invalidProtocol]

example : LoadMeta (some (SaveMetaAtomic ⟨7, 10, 3, [], []⟩)) =
    .ok ⟨1, 10, 3, [], []⟩ := by decide

example : chunks [1, 2, 3] = [[1, 2, 3]] := by decide

example :
    (prepareResumeState ⟨some [1, 2, 3, 4], some (.meta ⟨1, 4, 2, [], []⟩), none, false⟩
      ⟨[97], 4, [115]⟩ true).2 = .ok 2 := by decide

/-- ExitCode maps an error to a process exit code
(internal/errors/errors.go, src revision): nil is 0, a Usage-kind error
is 2, and everything else is 1. -/
def ExitCode (e : Option AppError) : Nat :=
  match e with
  | none => 0
  | some ks => if ErrKind.usage ∈ ks then 2 else 1

/-- Receiver options relevant to the connection handler
(ReceiverOptions in receiver.go, src revision): auto-accept, the prompt
callback reduced to its answer (none models a missing callback, which
denies), resume enable, and keep-partial.  Listen address, output
writer and the discovery hook do not affect the modelled behavior. -/
structure ROptions where
  autoAccept : Bool
  promptChoice : Option Bool
  resume : Bool
  keepPart : Bool
deriving DecidableEq, Repr

/-- State threaded through the receiver streaming loop: bytes counted
as written, the last meta sync mark, the write position of the open
partial file handle, the bytes fed to the live hasher, the disk state,
and the frames sent so far on the connection. -/
structure LoopSt where
  written : Nat
  lastMetaSync : Nat
  filePos : Nat
  hashAcc : ByteL
  disk : DiskState
  sent : List Frame
deriving DecidableEq, Repr

/-- Best-effort ERROR frame, as sendErrorFrame emits it; an encoding
failure is ignored by the call sites that discard the send error. -/
def errFrames (msg : ByteL) : List Frame :=
  match EncodeError msg with
  | .ok p => [⟨6, p⟩]
  | .error _ => []

/-- Append a best-effort ERROR frame to the sent list of a loop state. -/
def appendErrFrame (st : LoopSt) (msg : ByteL) : LoopSt :=
  { st with sent := st.sent ++ errFrames msg }

/-- Store a meta record on disk through SaveMetaAtomic. -/
def saveMeta (d : DiskState) (m : Meta) : DiskState :=
  { d with metaFile := some (SaveMetaAtomic m) }

/-- Meta record as the receiver builds it (receiver.go): expected size
and original name from the offer, the given received offset, and the
zero values for the unset Version and SessionID fields. -/
def metaFor (offer : OfferPayload) (recv : Nat) : Meta :=
  ⟨0, offer.size, recv, offer.name, []⟩

/-- Meta sync threshold (resumeMetaUpdateBytes, 4 MiB). -/
def resumeMetaUpdateBytes : Nat := 4 * 1024 * 1024

/-- Deferred cleanup of the receiver (receiver.go lines 154 to 162):
when the run failed before finalize, and neither KeepPartial nor the
preserve flag is set, the partial file and the meta sidecar are
removed; otherwise the disk is left as it is. -/
def applyCleanup (keepPart preserve : Bool) (d : DiskState) : DiskState :=
  if keepPart = false ∧ preserve = false then { d with pfile := none, metaFile := none }
  else d

/-- Streaming loop of the receiver (receiver.go lines 178 to 222),
reading frames until written bytes reach the offered size.  A transport
read failure or a sender ERROR frame sets the preserve flag and fails
Network; a non-DATA frame or an over-offer DATA chunk sends an ERROR
frame and fails InvalidProtocol without preserving; otherwise the chunk
is written at the current file position, fed to the live hasher only
when the resume offset is zero, and the meta sidecar is rewritten every
resumeMetaUpdateBytes bytes.  The error value carries the wrap-chain
kinds, the preserve flag, and the state at the failure.  Fuel drives
the structural recursion; callers pass the input length plus one, which
always suffices because a successful read consumes at least the 16
header bytes. -/
def streamLoop (fuel : Nat) (offer : OfferPayload) (ro : Nat)
    (input : ByteL) (st : LoopSt) :
    Except (AppError × Bool × LoopSt) (ByteL × LoopSt) :=
  match fuel with
  | 0 => .error ([], false, st)
  | fuel + 1 =>
    if st.written < offer.size then
      match ReadFrame input with
      | .error e => .error (e ++ [.network], true, st)
      | .ok (fr, rest) =>
        if fr.ftype = 6 then .error ([.network], true, st)
        else if fr.ftype ≠ 4 then
          .error ([.invalidProtocol], false, appendErrFrame st (strBytes "expected DATA frame"))
        else if offer.size < st.written + fr.payload.length then
          .error ([.invalidProtocol], false,
                  appendErrFrame st (strBytes "received more data than offered"))
        else
          let written2 := st.written + fr.payload.length
          let st2 : LoopSt :=
            { st with
              disk := { st.disk with
                        pfile := some (writeAt (st.disk.pfile.getD []) st.filePos fr.payload) }
              filePos := st.filePos + fr.payload.length
              hashAcc := if ro = 0 then st.hashAcc ++ fr.payload else st.hashAcc
              written := written2 }
          let st3 :=
            if resumeMetaUpdateBytes ≤ written2 - st2.lastMetaSync then
              { st2 with disk := saveMeta st2.disk (metaFor offer written2),
                         lastMetaSync := written2 }
            else st2
          streamLoop fuel offer ro rest st3
    else .ok (input, st)

/-- Result of one receiver connection: the terminal outcome with its
error kinds, the final disk state, and the frames sent to the peer. -/
structure HResult where
  outcome : Except AppError Unit
  disk : DiskState
  sent : List Frame
deriving DecidableEq, Repr

/-- Tail of the receiver after the streaming loop completed
(receiver.go lines 223 to 270): final meta update, read and decode
DONE, verify the digest (rehashing the partial file when the resume
offset was positive, otherwise finalizing the live hasher), and on
success sync and finalize; the deferred cleanup applies to the failure
paths that do not preserve the partial. -/
def donePhase (kp : Bool) (ro : Nat) (offer : OfferPayload)
    (input : ByteL) (st : LoopSt) : HResult :=
  let st := { st with disk := saveMeta st.disk (metaFor offer st.written) }
  match ReadFrame input with
  | .error e =>
    let st := appendErrFrame st (strBytes "missing DONE frame")
    ⟨.error (e ++ [.network]), st.disk, st.sent⟩
  | .ok (fr, _) =>
    if fr.ftype ≠ 5 then
      let st := appendErrFrame st (strBytes "expected DONE frame")
      ⟨.error [.invalidProtocol], applyCleanup kp false st.disk, st.sent⟩
    else
      match DecodeDone fr.payload with
      | .error e =>
        let st := appendErrFrame st (strBytes "invalid DONE payload")
        ⟨.error e, applyCleanup kp false st.disk, st.sent⟩
      | .ok expected =>
        let actual :=
          if 0 < ro then hashBytes (st.disk.pfile.getD []) else hashBytes st.hashAcc
        if expected ≠ actual then
          let st := appendErrFrame st (strBytes "integrity check failed")
          ⟨.error [.invalidProtocol], applyCleanup kp false st.disk, st.sent⟩
        else
          ⟨.ok (), Finalize st.disk, st.sent⟩

/-- HandleConnection processes one transfer session (receiver.go, src
revision): read HELLO, read and decode OFFER, decide acceptance, run
prepareResumeState, send ACCEPT carrying the negotiated offset, open
the partial preserving existing bytes and seek to the offset, write the
initial meta sidecar, run the streaming loop and the done phase.  Path
resolution is abstracted (the disk state is the state at the resolved
paths) and the src receiver acquires no lock.  The src receiver calls a
one-argument EncodeAccept, so the ACCEPT payload is modelled as the
8-byte big-endian offset alone.  Failure paths after the partial is
open go through the deferred cleanup. -/
def HandleConnection (opts : ROptions) (input : ByteL) (disk : DiskState) : HResult :=
  match ReadFrame input with
  | .error e => ⟨.error e, disk, []⟩
  | .ok (hello, rest1) =>
    if hello.ftype ≠ 1 then
      ⟨.error [.invalidProtocol], disk,
       errFrames (strBytes ("expected HELLO, got " ++ toString hello.ftype))⟩
    else
      match ReadFrame rest1 with
      | .error e => ⟨.error e, disk, []⟩
      | .ok (offerFr, rest2) =>
        if offerFr.ftype ≠ 2 then
          ⟨.error [.invalidProtocol], disk,
           errFrames (strBytes ("expected OFFER, got " ++ toString offerFr.ftype))⟩
        else
          match DecodeOffer offerFr.payload with
          | .error e => ⟨.error e, disk, errFrames (strBytes "invalid offer payload")⟩
          | .ok offer =>
            let accept := if opts.autoAccept then true else opts.promptChoice.getD false
            if accept = false then
              ⟨.error [.rejected], disk, errFrames (strBytes "transfer rejected")⟩
            else
              match prepareResumeState disk offer opts.resume with
              | (disk1, .error e) =>
                ⟨.error e, disk1, errFrames (strBytes "unable to prepare resume state")⟩
              | (disk1, .ok ro) =>
                let acceptFr : Frame := ⟨3, be64 ro⟩
                let disk2 : DiskState := { disk1 with pfile := some (disk1.pfile.getD []) }
                let disk3 := saveMeta disk2 (metaFor offer ro)
                let st0 : LoopSt := ⟨ro, ro, ro, [], disk3, [acceptFr]⟩
                match streamLoop (rest2.length + 1) offer ro rest2 st0 with
                | .error (e, pres, stE) =>
                  ⟨.error e, applyCleanup opts.keepPart pres stE.disk, stE.sent⟩
                | .ok (rest3, st1) => donePhase opts.keepPart ro offer rest3 st1

example : ReadFrame (frameBytes ⟨4, [7, 8, 9]⟩) = .ok (⟨4, [7, 8, 9]⟩, []) := by decide

/-- Every per-type payload cap is at most the DATA chunk cap. -/
theorem maxPayloadByType_le (t : Nat) : maxPayloadByType t ≤ 1048576 := by
  unfold maxPayloadByType MaxChunkSize MaxControlPayload HashSize
  split_ifs <;> norm_num

/-- Parsing a serialized frame from the front of a stream returns the
frame and the untouched remainder, for any frame within its per-type
cap. -/
theorem ReadFrame_frameBytes (f : Frame) (rest : ByteL) (ht : f.ftype < 65536)
    (hp : f.payload.length ≤ maxPayloadByType f.ftype) :
    ReadFrame (frameBytes f ++ rest) = .ok (f, rest) := by
  obtain ⟨t, p⟩ := f
  have ht : t < 65536 := ht
  have hp : p.length ≤ maxPayloadByType t := hp
  have hcap : maxPayloadByType t ≤ 1048576 := maxPayloadByType_le t
  simp only [frameBytes, List.cons_append, List.nil_append]
  simp only [ReadFrame]
  have h1 : ¬([83, 83, 89, 78] ≠ magicBytes) := by decide
  have h2 : ¬((0 : Nat) * 256 + 1 ≠ 1) := by norm_num
  have h3 : ¬((0 : Nat) * 16777216 + 0 * 65536 + 0 * 256 + 0 ≠ 0) := by norm_num
  rw [if_neg h1, if_neg h2, if_neg h3]
  have ht2 : t / 256 % 256 * 256 + t % 256 = t := by omega
  have hlen : p.length ≤ 1048576 := le_trans hp hcap
  have hl2 : p.length / 16777216 % 256 * 16777216 + p.length / 65536 % 256 * 65536 +
      p.length / 256 % 256 * 256 + p.length % 256 = p.length := by omega
  simp only [ht2, hl2]
  rw [if_neg (Nat.not_lt.mpr hp)]
  have h4 : ¬((p ++ rest).length < p.length) := by simp
  rw [if_neg h4]
  rw [show (p ++ rest).take p.length = p from List.take_left p rest,
      show (p ++ rest).drop p.length = rest from List.drop_left p rest]

/-- Claim C7: for every frame whose payload length is at most the
per-type cap, writing the frame with WriteFrame and parsing the
produced bytes with ReadFrame returns the same frame with the same
payload bytes. -/
theorem frame_roundtrip (f : Frame) (ht : f.ftype < 65536)
    (hp : f.payload.length ≤ maxPayloadByType f.ftype) :
    WriteFrame f = .ok (frameBytes f) ∧ ReadFrame (frameBytes f) = .ok (f, []) := by
  refine ⟨?_, ?_⟩
  · unfold WriteFrame
    rw [if_neg (Nat.not_lt.mpr hp)]
  · have h := ReadFrame_frameBytes f [] ht hp
    simpa using h

/-- Claim C7 witness: the round trip evaluated on a concrete DATA
frame. -/
theorem frame_roundtrip_witness :
    WriteFrame ⟨4, [7, 8]⟩ = .ok (frameBytes ⟨4, [7, 8]⟩) ∧
    ReadFrame (frameBytes ⟨4, [7, 8]⟩) = .ok (⟨4, [7, 8]⟩, []) :=
  frame_roundtrip ⟨4, [7, 8]⟩ (by decide) (by decide)

/-- Unknown frame types fall to the default control cap. -/
theorem maxPayloadByType_unknown (t : Nat) (h : t ∉ ([1, 2, 3, 4, 5, 6] : List Nat)) :
    maxPayloadByType t = 4096 := by
  simp only [List.mem_cons, List.not_mem_nil, or_false, not_or] at h
  obtain ⟨h1, h2, h3, h4, h5, h6⟩ := h
  unfold maxPayloadByType MaxControlPayload
  rw [if_neg h1, if_neg h3, if_neg h5, if_neg (by tauto), if_neg h4]

/-- Claim C9: the frame codec does not validate the frame type: for
every type value outside the six defined ones, the cap is the default
4096, WriteFrame emits the frame, and ReadFrame accepts the header and
returns the frame with that unknown type to the caller. -/
theorem unknown_type_roundtrip (t : Nat) (p : ByteL) (ht : t < 65536)
    (hu : t ∉ ([1, 2, 3, 4, 5, 6] : List Nat)) (hp : p.length ≤ 4096) :
    maxPayloadByType t = 4096 ∧
    WriteFrame ⟨t, p⟩ = .ok (frameBytes ⟨t, p⟩) ∧
    ReadFrame (frameBytes ⟨t, p⟩) = .ok (⟨t, p⟩, []) := by
  have hc := maxPayloadByType_unknown t hu
  have hp2 : (Frame.mk t p).payload.length ≤ maxPayloadByType (Frame.mk t p).ftype := by
    simpa [hc] using hp
  exact ⟨hc, frame_roundtrip ⟨t, p⟩ ht hp2⟩

/-- Claim C9 witness: a frame of undefined type 9 round trips through
the codec. -/
theorem unknown_type_roundtrip_witness :
    maxPayloadByType 9 = 4096 ∧
    WriteFrame ⟨9, [1, 2, 3]⟩ = .ok (frameBytes ⟨9, [1, 2, 3]⟩) ∧
    ReadFrame (frameBytes ⟨9, [1, 2, 3]⟩) = .ok (⟨9, [1, 2, 3]⟩, []) :=
  unknown_type_roundtrip 9 [1, 2, 3] (by decide) (by decide) (by decide)

example : WriteFrame ⟨1, [5]⟩ = .error [.invalidProtocol] := by decide

example : DecodeOffer ((EncodeOffer [97] 3 [115]).toOption.getD []) =
    .ok ⟨[97], 3, [115]⟩ := by decide

/-- Claim C8: the resume offset prepareResumeState returns never
exceeds the offered size: every restart branch returns 0, and the
resume branch returns the received offset clamped to the partial size
after the partial has been truncated down to at most the offered
size. -/
theorem resume_offset_le_size (d : DiskState) (offer : OfferPayload) (enabled : Bool)
    (d2 : DiskState) (off : Nat)
    (h : prepareResumeState d offer enabled = (d2, .ok off)) : off ≤ offer.size := by
  unfold prepareResumeState at h
  split at h
  · injection h with hd ho; injection ho with ho2; omega
  · split at h
    · injection h with hd ho; injection ho with ho2; omega
    · injection h with hd ho; injection ho with ho2; omega
    · injection h with hd ho; injection ho with ho2; omega
    · injection h with hd ho; injection ho
    · injection h with hd ho; injection ho with ho2; omega
    · split_ifs at h <;> (try dsimp only at h) <;> (try split_ifs at h) <;>
        (injection h with hd ho; injection ho with ho2; omega)

/-- Claim C8 witness: a matching resume state returns the stored
offset, which is within the offered size. -/
theorem resume_offset_le_size_witness : (2 : Nat) ≤ 4 :=
  resume_offset_le_size
    ⟨some [1, 2, 3, 4], some (.meta ⟨1, 4, 2, [], []⟩), none, false⟩
    ⟨[97], 4, [115]⟩ true
    ⟨some [1, 2, 3, 4], some (.meta ⟨1, 4, 2, [], []⟩), none, false⟩ 2 (by decide)

/-- Claim C2 counterexample: with an existing 3-byte partial and a
parseable sidecar whose session and expected size both differ from the
offer, resume enabled, the src receiver does not fail Rejected: it
returns offset 0 with no error, truncates the partial to zero bytes and
deletes the sidecar, so the partial bytes are modified. -/
theorem resume_mismatch_counterexample :
    prepareResumeState
        ⟨some [120, 120, 120], some (.meta ⟨1, 9999, 512, [98], [79]⟩), none, false⟩
        ⟨[98], 1024, [78]⟩ true =
      (⟨some [], none, none, false⟩, .ok 0) ∧
    (some ([] : ByteL)) ≠ some [120, 120, 120] := by decide

/-- Claim C2 amended: when both the partial and a parseable sidecar
exist with resume enabled and the sidecar expected size differs from
the offered size, the src receiver truncates the partial to zero bytes,
deletes the sidecar, and returns resume offset 0 with no error; the
session id is never consulted and no Rejected failure occurs. -/
theorem resume_size_mismatch_restarts (d : DiskState) (offer : OfferPayload)
    (c : ByteL) (m : Meta) (hp : d.pfile = some c)
    (hm : LoadMeta d.metaFile = .ok m) (hs : m.expectedSize ≠ offer.size) :
    prepareResumeState d offer true =
      ({ d with pfile := some [], metaFile := none }, .ok 0) := by
  unfold prepareResumeState
  rw [if_neg (by decide : ¬(true = false)), hp, hm]
  dsimp only
  rw [if_pos hs]

/-- Claim C2 amended witness: the restart outcome evaluated on a
concrete mismatching state. -/
theorem resume_size_mismatch_restarts_witness :
    prepareResumeState ⟨some [1], some (.meta ⟨1, 5, 1, [], []⟩), none, false⟩
        ⟨[97], 3, [115]⟩ true =
      (⟨some [], none, none, false⟩, .ok 0) :=
  resume_size_mismatch_restarts
    ⟨some [1], some (.meta ⟨1, 5, 1, [], []⟩), none, false⟩
    ⟨[97], 3, [115]⟩ [1] ⟨1, 5, 1, [], []⟩ rfl (by decide) (by decide)

/-- Claim C4: a transport read failure, or a sender-reported ERROR
frame, hit while written bytes are below the offered size, makes the
streaming loop fail with a Network-kind error, with the preserve flag
set and the state exactly as it was at the failure; the deferred
cleanup then leaves the partial file and the meta sidecar untouched for
every keep-partial setting. -/
theorem streaming_failure_preserves_state (offer : OfferPayload) (ro fuel : Nat)
    (input : ByteL) (st : LoopSt) (kp : Bool)
    (hw : st.written < offer.size)
    (h : (∃ e0, ReadFrame input = .error e0) ∨
         (∃ fr rest, ReadFrame input = .ok (fr, rest) ∧ fr.ftype = 6)) :
    ∃ e, streamLoop (fuel + 1) offer ro input st = .error (e, true, st) ∧
      ErrKind.network ∈ e ∧ applyCleanup kp true st.disk = st.disk := by
  rcases h with ⟨e0, he⟩ | ⟨fr, rest, he, hft⟩
  · refine ⟨e0 ++ [.network], ?_, by simp, ?_⟩
    · simp only [streamLoop, if_pos hw, he]
    · simp [applyCleanup]
  · refine ⟨[.network], ?_, by simp, ?_⟩
    · simp only [streamLoop, if_pos hw, he, hft]
      simp
    · simp [applyCleanup]

/-- Claim C4 witness: the loop state is preserved when the stream ends
in the middle of the transfer. -/
theorem streaming_failure_preserves_state_witness :
    ∃ e, streamLoop 1 ⟨[97], 1, [115]⟩ 0 []
          ⟨0, 0, 0, [], ⟨some [], none, none, false⟩, []⟩ =
        .error (e, true, ⟨0, 0, 0, [], ⟨some [], none, none, false⟩, []⟩) ∧
      ErrKind.network ∈ e ∧
      applyCleanup false true (⟨some [], none, none, false⟩ : DiskState) =
        ⟨some [], none, none, false⟩ :=
  streaming_failure_preserves_state ⟨[97], 1, [115]⟩ 0 0 []
    ⟨0, 0, 0, [], ⟨some [], none, none, false⟩, []⟩ false (by decide)
    (Or.inl ⟨[], rfl⟩)

/-- Decoding a DONE payload built from the 2-byte hash length marker
and a 32-byte digest yields that digest. -/
theorem DecodeDone_digest (d : ByteL) (h : d.length = HashSize) :
    DecodeDone (be16 HashSize ++ d) = .ok d := by
  simp [DecodeDone, be16, rdNat, HashSize, h]

/-- Claim C3 amended: when the DONE digest differs from the digest the
receiver computed, and KeepPartial is not set, the done phase sends an
ERROR frame with message integrity check failed, the deferred cleanup
deletes both the partial file and the meta sidecar, and the failure
kind is InvalidProtocol (no Integrity kind exists in the code). -/
theorem integrity_mismatch_behavior (ro : Nat) (offer : OfferPayload)
    (input : ByteL) (st : LoopSt) (d rest : ByteL)
    (hread : ReadFrame input = .ok (⟨5, be16 HashSize ++ d⟩, rest))
    (hlen : d.length = HashSize)
    (hne : d ≠ (if 0 < ro then hashBytes (st.disk.pfile.getD []) else hashBytes st.hashAcc)) :
    ∃ d2, donePhase false ro offer input st =
        ⟨.error [.invalidProtocol], d2,
         st.sent ++ errFrames (strBytes "integrity check failed")⟩ ∧
      d2.pfile = none ∧ d2.metaFile = none := by
  refine ⟨applyCleanup false false (saveMeta st.disk (metaFor offer st.written)),
    ?_, by simp [applyCleanup], by simp [applyCleanup]⟩
  unfold donePhase
  rw [hread]
  dsimp only
  rw [if_neg (by decide : ¬((5 : Nat) ≠ 5)), DecodeDone_digest d hlen]
  dsimp only
  rw [show (saveMeta st.disk (metaFor offer st.written)).pfile = st.disk.pfile from rfl]
  rw [if_pos hne]
  rfl

/-- Claim C3 amended witness: a concrete mismatching digest after a
fresh three-byte transfer. -/
theorem integrity_mismatch_behavior_witness :
    ∃ d2, donePhase false 0 ⟨[97], 3, [115]⟩
          (frameBytes ⟨5, be16 HashSize ++ List.replicate 32 0⟩)
          ⟨3, 0, 3, [1, 2, 3], ⟨some [1, 2, 3], none, none, false⟩, []⟩ =
        ⟨.error [.invalidProtocol], d2,
         [] ++ errFrames (strBytes "integrity check failed")⟩ ∧
      d2.pfile = none ∧ d2.metaFile = none :=
  integrity_mismatch_behavior 0 ⟨[97], 3, [115]⟩
    (frameBytes ⟨5, be16 HashSize ++ List.replicate 32 0⟩)
    ⟨3, 0, 3, [1, 2, 3], ⟨some [1, 2, 3], none, none, false⟩, []⟩
    (List.replicate 32 0) []
    (by decide) (by decide) (by decide)

/-- Input stream of the integrity-mismatch counterexample run: HELLO,
a three-byte OFFER, one DATA chunk, and a DONE frame whose digest is 32
zero bytes, different from the digest of the received bytes. -/
def c3Input : ByteL :=
  frameBytes ⟨1, []⟩ ++
  frameBytes ⟨2, (EncodeOffer [97] 3 [115]).toOption.getD []⟩ ++
  frameBytes ⟨4, [1, 2, 3]⟩ ++
  frameBytes ⟨5, be16 HashSize ++ List.replicate 32 0⟩

/-- Receiver run of the integrity-mismatch counterexample. -/
def c3Run : HResult :=
  HandleConnection ⟨true, none, true, false⟩ c3Input ⟨none, none, none, false⟩

/-- Claim C3 counterexample: on a complete run whose DONE digest
differs from the digest of the received bytes, the receiver does send
the ERROR frame with message integrity check failed and does delete
partial and meta, but the terminal failure wraps the InvalidProtocol
kind, not an Integrity kind. -/
theorem integrity_kind_counterexample :
    c3Run.outcome = .error [.invalidProtocol] ∧
    Frame.mk 6 (be16 22 ++ strBytes "integrity check failed") ∈ c3Run.sent ∧
    c3Run.disk.pfile = none ∧ c3Run.disk.metaFile = none ∧
    ErrKind.integrity ∉ ([ErrKind.invalidProtocol] : List ErrKind) := by decide

/-- Source bytes of the sender resume claim run. -/
def c1Source : ByteL := [10, 20, 30, 40]

/-- ACCEPT frame carrying negotiated resume offset 2 and an echoed
session id, as the receiver of the spec would send it. -/
def c1Accept : Frame := ⟨3, EncodeAccept 2 [65]⟩

/-- Claim C1: the src sender does not honor the negotiated resume
offset.  The ACCEPT payload decodes to offset 2, yet Send never calls
DecodeAccept: it streams the whole four-byte source from byte zero and
sends the digest of the whole source, instead of sending only the bytes
from offset 2 onward. -/
theorem sender_ignores_accept_offset :
    DecodeAccept c1Accept.payload = .ok (2, [65]) ∧
    SendSession c1Source c1Accept none =
      .ok [⟨4, c1Source⟩, ⟨5, be16 HashSize ++ hashBytes c1Source⟩] ∧
    c1Source ≠ c1Source.drop 2 := by decide

/-- Input stream of the lock claim run: a well-formed happy-path
transfer (HELLO, OFFER, one DATA chunk, DONE with the correct digest)
arriving while the lock file already exists. -/
def c5Input : ByteL :=
  frameBytes ⟨1, []⟩ ++
  frameBytes ⟨2, (EncodeOffer [98] 3 [115]).toOption.getD []⟩ ++
  frameBytes ⟨4, [4, 5, 6]⟩ ++
  frameBytes ⟨5, be16 HashSize ++ hashBytes [4, 5, 6]⟩

/-- Receiver run of the lock claim: the lock file exists beforehand. -/
def c5Run : HResult :=
  HandleConnection ⟨true, none, true, false⟩ c5Input ⟨none, none, none, true⟩

/-- Claim C5: the src receiver never acquires the single-writer lock.
With the lock file already present, the connection is accepted and
completes: no LockBusy failure, no ERROR frame, and the foreign lock is
even removed by finalize.  AcquireLock itself, had it been called,
would have failed LockBusy on this state. -/
theorem receiver_ignores_existing_lock :
    c5Run.outcome = .ok () ∧
    c5Run.sent = [⟨3, be64 0⟩] ∧
    c5Run.disk.finalFile = some [4, 5, 6] ∧
    (∀ fr ∈ c5Run.sent, fr.ftype ≠ 6) ∧
    AcquireLock true false = .error [.lockBusy] := by decide

/-- Claim C6 counterexample: an error wrapping the Rejected kind maps
to exit code 1 under the src ExitCode, not to the claimed 3. -/
theorem exit_code_counterexample :
    ExitCode (some [ErrKind.rejected]) = 1 ∧ (1 : Nat) ≠ 3 := by decide

/-- Claim C6 amended: the src exit mapping sends nil to 0, any error
whose wrap chain contains the Usage kind to 2, and every other error,
including Rejected, InvalidProtocol, Network and IO kinds, to 1. -/
theorem exit_code_mapping (ks : AppError) :
    ExitCode none = 0 ∧
    (ErrKind.usage ∈ ks → ExitCode (some ks) = 2) ∧
    (ErrKind.usage ∉ ks → ExitCode (some ks) = 1) := by
  refine ⟨rfl, ?_, ?_⟩ <;> intro h <;> simp [ExitCode, h]

/-- Claim C6 amended witness: the mapping evaluated on a usage error
and on a network error. -/
theorem exit_code_mapping_witness :
    ExitCode (some [ErrKind.usage]) = 2 ∧ ExitCode (some [ErrKind.network]) = 1 :=
  ⟨(exit_code_mapping [ErrKind.usage]).2.1 (by decide),
   (exit_code_mapping [ErrKind.network]).2.2 (by decide)⟩

/-- Claim C10: SaveMetaAtomic overwrites the Version field with 1
before encoding, so for every meta value, loading a sidecar produced by
SaveMetaAtomic succeeds and returns the value with its Version field
set to 1; the version gate of LoadMeta never rejects such sidecars. -/
theorem meta_save_load_roundtrip (m : Meta) :
    LoadMeta (some (SaveMetaAtomic m)) = .ok { m with version := MetaVersion } := by
  simp [LoadMeta, SaveMetaAtomic]

end SnapSync
